import Mathlib

/-!
Shallow embedding of the TaskMaster backend (Express + Mongoose) relevant to the
authentication / authorization / task-ownership contract.

Sources embedded:
- src/backend/controllers/task.controller.js  (createTask, getTasks, updateTask, deleteTask)
- src/backend/controllers/auth.controller.js  (register, login, getTeamMembers)
- src/backend/controllers/user.controller.js  (updatePassword, updateProfile)
- src/unnamed/part_002                         (middleware/authenticateToken.js)
- src/backend/models/Task.js                   (task schema: defaults, enums, validators)

The MongoDB store is embedded as a Lean list of documents; `findOne` becomes
`List.find?`, an owner-scoped `findOneAndUpdate`/`findOneAndDelete` becomes a
find + replace/erase on the first matching element, and `.sort(...)` becomes
`List.insertionSort`.  Mongo ObjectIds are embedded as `Nat`; a route parameter
that fails `mongoose.Types.ObjectId.isValid` is embedded as `none`.
-/

namespace TaskMaster

/-- An HTTP-level outcome: status code plus the JSON `message` field. -/
structure Resp where
  status : Nat
  message : String
deriving DecidableEq

/-- Task document, after models/Task.js (timestamps come from `timestamps: true`). -/
structure Task where
  id : Nat
  title : String
  description : String
  dueDate : Int
  priority : String
  status : String
  assignee : String
  createdBy : Nat
  createdAt : Nat
  updatedAt : Nat
deriving DecidableEq

/-- `enum: ["pending", "in-progress", "completed"]` in models/Task.js. -/
def allowedStatuses : List String := ["pending", "in-progress", "completed"]

/-- `enum: ["high", "medium", "low"]` in models/Task.js. -/
def allowedPriorities : List String := ["high", "medium", "low"]

/-- The raw `dueDate` body field as the controller sees it: absent (or JS-falsy),
present but failing `new Date(...)` parsing, or parsed to a timestamp. -/
inductive RawDate
  | missing
  | unparseable
  | parsed (t : Int)
deriving DecidableEq

/-- Whitespace for JS / mongoose `trim`. -/
def isWs (c : Char) : Bool := c = ' ' ∨ c = '\t' ∨ c = '\n' ∨ c = '\r'

/-- JS `.trim()` / mongoose `trim: true`: strip leading and trailing
whitespace.  (Kernel-evaluable version of String.trim.) -/
def trimStr (s : String) : String :=
  String.mk (((s.data.dropWhile isWs).reverse.dropWhile isWs).reverse)

/-- JS `x || d` for an optional string field: default applies when the field is
absent or the empty string (falsy). -/
def orDefault (v : Option String) (d : String) : String :=
  match v with
  | some s => if s = "" then d else s
  | none => d

/-- Request body of POST /api/tasks.  The controller destructures only
title/description/dueDate/priority/status/assignee; a `createdBy` field in the
raw body is carried here to show it is never read. -/
structure CreateTaskBody where
  title : String
  description : Option String
  dueDate : RawDate
  priority : Option String
  status : Option String
  assignee : Option String
  createdBy : Option Nat
deriving DecidableEq

/-- Task-schema document validation run by `newTask.save()`: title is trimmed,
required, minlength 3; priority and status must be in their enums. -/
def validTaskDoc (t : Task) : Bool :=
  3 ≤ t.title.length && allowedPriorities.contains t.priority
    && allowedStatuses.contains t.status

/-- createTask from task.controller.js.  `freshId`/`now` stand for the
server-assigned `_id` and the `timestamps: true` clock.  Returns
((response, task payload), new store).  The post-response email side effect is
not embedded: it runs after the 201 is sent and never alters the outcome. -/
def createTask (db : List Task) (userId : Nat) (body : CreateTaskBody)
    (freshId now : Nat) : (Resp × Option Task) × List Task :=
  if body.title = "" ∨ body.dueDate = RawDate.missing then
    ((⟨400, "Title and due date are required."⟩, none), db)
  else
    match body.dueDate with
    | RawDate.missing => ((⟨400, "Title and due date are required."⟩, none), db)
    | RawDate.unparseable => ((⟨400, "Invalid due date format provided."⟩, none), db)
    | RawDate.parsed d =>
      let newTask : Task :=
        { id := freshId
          title := trimStr body.title
          description := trimStr (body.description.getD "")
          dueDate := d
          priority := orDefault body.priority "medium"
          status := orDefault body.status "pending"
          assignee := trimStr (body.assignee.getD "")
          createdBy := userId
          createdAt := now
          updatedAt := now }
      if validTaskDoc newTask then
        ((⟨201, "Task created successfully!"⟩, some newTask), db ++ [newTask])
      else
        ((⟨400, "Validation Error"⟩, none), db)

/-- Owner-scoped filter `{ _id: taskId, createdBy: userId }`. -/
def ownedBy (taskId userId : Nat) (t : Task) : Bool :=
  t.id == taskId && t.createdBy == userId

/-- Replace the first element satisfying the predicate (what a Mongo
`findOneAndUpdate` does to the store). -/
def replaceFirst {α : Type} (db : List α) (p : α → Bool) (x : α) : List α :=
  match db with
  | [] => []
  | a :: rest => if p a then x :: rest else a :: replaceFirst rest p x

/-- Request body of PATCH /api/tasks/:taskId.  The controller passes the whole
body to `$set`, so every schema path, including `createdBy`, is settable. -/
structure TaskPatch where
  title : Option String
  description : Option String
  dueDate : Option Int
  priority : Option String
  status : Option String
  assignee : Option String
  createdBy : Option Nat
deriving DecidableEq

/-- `$set: updateData` applied to a task document (schema setters trim strings;
`timestamps: true` refreshes updatedAt). -/
def applyPatch (t : Task) (p : TaskPatch) (now : Nat) : Task :=
  { id := t.id
    title := match p.title with | some s => trimStr s | none => t.title
    description := match p.description with | some s => trimStr s | none => t.description
    dueDate := p.dueDate.getD t.dueDate
    priority := p.priority.getD t.priority
    status := p.status.getD t.status
    assignee := match p.assignee with | some s => trimStr s | none => t.assignee
    createdBy := p.createdBy.getD t.createdBy
    createdAt := t.createdAt
    updatedAt := now }

/-- The controller's own pre-check `if (updateData.status) { ...enum check... }`:
JS truthiness, so an empty-string status skips it. -/
def statusPrecheckFails (body : TaskPatch) : Bool :=
  match body.status with
  | some s => s != "" && !(allowedStatuses.contains s)
  | none => false

/-- `runValidators: true` validators on the paths present in the update. -/
def patchValid (body : TaskPatch) : Bool :=
  (match body.title with | some s => 3 ≤ (trimStr s).length | none => true)
    && (match body.priority with | some s => allowedPriorities.contains s | none => true)
    && (match body.status with | some s => allowedStatuses.contains s | none => true)

/-- updateTask from task.controller.js: validate id format, pre-check status,
then `findOneAndUpdate({_id, createdBy}, {$set: body}, {new, runValidators})`;
a null result is the combined not-found / not-owner 404. -/
def updateTask (db : List Task) (userId : Nat) (rawTaskId : Option Nat)
    (body : TaskPatch) (now : Nat) : (Resp × Option Task) × List Task :=
  match rawTaskId with
  | none => ((⟨400, "Invalid task ID format"⟩, none), db)
  | some taskId =>
    if statusPrecheckFails body then
      ((⟨400, "Invalid status. Must be one of: " ++ String.intercalate ", " allowedStatuses⟩,
        none), db)
    else if !(patchValid body) then
      ((⟨400, "Validation Error"⟩, none), db)
    else
      match db.find? (ownedBy taskId userId) with
      | none =>
        ((⟨404, "Task not found or you do not have permission to update it."⟩, none), db)
      | some t =>
        let t' := applyPatch t body now
        ((⟨200, "Task updated successfully!"⟩, some t'),
          replaceFirst db (ownedBy taskId userId) t')

/-- deleteTask from task.controller.js:
`findOneAndDelete({ _id: taskId, createdBy: userId })`. -/
def deleteTask (db : List Task) (userId : Nat) (rawTaskId : Option Nat) :
    (Resp × Option Nat) × List Task :=
  match rawTaskId with
  | none => ((⟨400, "Invalid task ID format"⟩, none), db)
  | some taskId =>
    match db.find? (ownedBy taskId userId) with
    | none =>
      ((⟨404, "Task not found or you do not have permission to delete it."⟩, none), db)
    | some _ =>
      ((⟨200, "Task deleted successfully!"⟩, some taskId),
        db.eraseP (ownedBy taskId userId))

/-- Newest-created first: `.sort({ createdAt: -1 })`. -/
def newestFirst (a b : Task) : Prop := b.createdAt ≤ a.createdAt

instance : DecidableRel newestFirst := fun a b => Nat.decLe b.createdAt a.createdAt

/-- getTasks from task.controller.js:
`Task.find({ createdBy: userId }).sort({ createdAt: -1 })`. -/
def getTasks (db : List Task) (userId : Nat) : List Task :=
  List.insertionSort newestFirst (db.filter (fun t => t.createdBy == userId))

/-- User document.  Modelled from the spec: models/User.js is not among the
provided sources (only its callers are).  Per the spec's data model, an account
has unique username and email, a role defaulting to "user", optional phone and
bio, an avatar reference, timestamps, and the password persisted only as a
one-way salted hash. -/
structure User where
  id : Nat
  username : String
  email : String
  passwordHash : String
  role : String
  phone : String
  bio : String
  avatarUrl : String
  createdAt : Nat
  updatedAt : Nat
deriving DecidableEq

/-- Modelled from the spec: the pre-save hook of the absent models/User.js
persists the password "only as a one-way salted hash".  The hash is embedded as
an injective tagged encoding; one-wayness is irrelevant to the claims, only
that comparison means hash-of-candidate equality. -/
def bcryptHash (pw : String) : String := "bcrypt$" ++ pw

/-- Modelled from the spec: `comparePassword` of the absent models/User.js,
a hash-comparison of the candidate against the stored hash. -/
def User.comparePassword (u : User) (pw : String) : Bool :=
  bcryptHash pw == u.passwordHash

/-- Sanitized account view: every stored field except the password hash
(the shape of `.select('-password')` and of the login userResponse). -/
structure UserView where
  id : Nat
  username : String
  email : String
  role : String
  phone : String
  bio : String
  avatarUrl : String
  createdAt : Nat
  updatedAt : Nat
deriving DecidableEq

def stripSecret (u : User) : UserView :=
  { id := u.id
    username := u.username
    email := u.email
    role := u.role
    phone := u.phone
    bio := u.bio
    avatarUrl := u.avatarUrl
    createdAt := u.createdAt
    updatedAt := u.updatedAt }

/-- The userResponse literal built by register: _id, username, email, role and
timestamps only. -/
structure RegisterView where
  id : Nat
  username : String
  email : String
  role : String
  createdAt : Nat
  updatedAt : Nat
deriving DecidableEq

def toRegisterView (u : User) : RegisterView :=
  { id := u.id
    username := u.username
    email := u.email
    role := u.role
    createdAt := u.createdAt
    updatedAt := u.updatedAt }

/-- Outcome of the storage layer for `newUser.save()` in register: success, or
an exception carrying a `name` and an optional `code` (a Mongo duplicate-key
race surfaces as name "MongoServerError" with code 11000, not as a
"ValidationError").  Injected as a parameter because a race cannot be derived
from the pre-checked store state. -/
inductive SaveOutcome
  | ok
  | fail (name : String) (code : Option Nat)
deriving DecidableEq

/-- register from auth.controller.js.  `freshId`/`now` stand for the
server-assigned `_id` and timestamp clock.  The catch block maps a save error
named "ValidationError" to 400 and every other save error to 500. -/
def register (db : List User) (username email password : String)
    (freshId now : Nat) (save : SaveOutcome) :
    (Resp × Option RegisterView) × List User :=
  if username = "" ∨ email = "" ∨ password = "" then
    ((⟨400, "Username, email, and password are required."⟩, none), db)
  else if password.length < 6 then
    ((⟨400, "Password must be at least 6 characters long."⟩, none), db)
  else
    match db.find? (fun u => u.email == email || u.username == username) with
    | some existingUser =>
      let field := if existingUser.email == email then "email" else "username"
      ((⟨400, "User with this " ++ field ++ " already exists."⟩, none), db)
    | none =>
      match save with
      | SaveOutcome.fail n _ =>
        if n == "ValidationError" then ((⟨400, "Validation Error"⟩, none), db)
        else ((⟨500, "Server error during registration."⟩, none), db)
      | SaveOutcome.ok =>
        let newUser : User :=
          { id := freshId
            username := username
            email := email
            passwordHash := bcryptHash password
            role := "user"
            phone := ""
            bio := ""
            avatarUrl := ""
            createdAt := now
            updatedAt := now }
        ((⟨201, "User registered successfully!"⟩, some (toRegisterView newUser)),
          db ++ [newUser])

/-- JWT payload signed at login: `{ userId, username, role }`.  `userId` is an
Option so the middleware's `!decoded.userId` check is expressible. -/
structure JwtPayload where
  userId : Option Nat
  username : String
  role : String
deriving DecidableEq

/-- Abstract MAC over (payload, iat, exp) with the signing secret: the
jsonwebtoken library (external dependency) is embedded as a signature scheme
with perfect integrity, so a signature verifies under a secret exactly when the
token's payload and times were signed with that same secret. -/
structure JwtSig where
  payload : JwtPayload
  iat : Nat
  exp : Nat
  secret : String
deriving DecidableEq

structure Jwt where
  payload : JwtPayload
  iat : Nat
  exp : Nat
  sig : JwtSig
deriving DecidableEq

def mkSig (p : JwtPayload) (iat exp : Nat) (secret : String) : JwtSig :=
  { payload := p, iat := iat, exp := exp, secret := secret }

/-- `jwt.sign(payload, secret, { expiresIn })`, times in seconds. -/
def jwtSign (p : JwtPayload) (secret : String) (iat expiresInSec : Nat) : Jwt :=
  { payload := p
    iat := iat
    exp := iat + expiresInSec
    sig := mkSig p iat (iat + expiresInSec) secret }

inductive VerifyResult
  | errExpired
  | errInvalid
  | ok (p : JwtPayload)
deriving DecidableEq

/-- `jwt.verify(token, secret, cb)`: signature integrity first (failure is a
JsonWebTokenError), then expiry (`TokenExpiredError` once now reaches exp). -/
def jwtVerify (t : Jwt) (secret : String) (now : Nat) : VerifyResult :=
  if t.sig ≠ mkSig t.payload t.iat t.exp secret then VerifyResult.errInvalid
  else if t.exp ≤ now then VerifyResult.errExpired
  else VerifyResult.ok t.payload

/-- login from auth.controller.js: on success returns the token (signed with a
24-hour = 86400-second expiry) and the sanitized user view. -/
inductive LoginOut
  | fail (r : Resp)
  | ok (r : Resp) (token : Jwt) (user : UserView)
deriving DecidableEq

def login (db : List User) (email password secret : String) (now : Nat) :
    LoginOut :=
  if email = "" ∨ password = "" then
    LoginOut.fail ⟨400, "Email and password are required."⟩
  else
    match db.find? (fun u => u.email == email) with
    | none => LoginOut.fail ⟨401, "Invalid credentials."⟩
    | some u =>
      if u.comparePassword password then
        LoginOut.ok ⟨200, "Login successful!"⟩
          (jwtSign { userId := some u.id, username := u.username, role := u.role }
            secret now 86400)
          (stripSecret u)
      else LoginOut.fail ⟨401, "Invalid credentials."⟩

/-- Result of the authenticateToken middleware: an early JSON rejection, or
`next()` with the decoded payload attached as `req.user`. -/
inductive AuthResult
  | reject (r : Resp)
  | proceed (user : JwtPayload)
deriving DecidableEq

/-- authenticateToken from src/unnamed/part_002.  The Authorization header is
embedded as an optional (scheme word, token after the first space) pair:
`authHeader && authHeader.split(" ")[1]` yields no token when the header is
absent or has no second part. -/
def authenticateToken (authHeader : Option (String × Option Jwt))
    (secret : String) (now : Nat) : AuthResult :=
  let token : Option Jwt :=
    match authHeader with
    | none => none
    | some (_, t) => t
  match token with
  | none => AuthResult.reject ⟨401, "Authentication token required"⟩
  | some t =>
    match jwtVerify t secret now with
    | VerifyResult.errExpired => AuthResult.reject ⟨401, "Token expired"⟩
    | VerifyResult.errInvalid => AuthResult.reject ⟨403, "Invalid token"⟩
    | VerifyResult.ok p =>
      match p.userId with
      | none => AuthResult.reject ⟨403, "Invalid token payload"⟩
      | some _ => AuthResult.proceed p

/-- Alphabetical username order: `.sort({ username: 1 })`. -/
def byUsername (a b : User) : Prop := a.username ≤ b.username

instance : DecidableRel byUsername := fun a b =>
  inferInstanceAs (Decidable (a.username ≤ b.username))

/-- getTeamMembers from the team controller (inside auth sources):
`User.find({}).select('-password').sort({ username: 1 })`. -/
def getTeamMembers (db : List User) : List UserView :=
  (List.insertionSort byUsername db).map stripSecret

/-- `User.findById(userId)`. -/
def findById (db : List User) (userId : Nat) : Option User :=
  db.find? (fun u => u.id == userId)

/-- updatePassword from user.controller.js.  The equality check on the two
supplied plaintexts runs before any lookup of the account. -/
def updatePassword (db : List User) (userId : Nat)
    (currentPassword newPassword : String) (now : Nat) : Resp × List User :=
  if currentPassword = "" ∨ newPassword = "" then
    (⟨400, "Current password and new password are required."⟩, db)
  else if newPassword.length < 6 then
    (⟨400, "New password must be at least 6 characters long."⟩, db)
  else if currentPassword = newPassword then
    (⟨400, "New password cannot be the same as the current password."⟩, db)
  else
    match findById db userId with
    | none => (⟨404, "User not found."⟩, db)
    | some u =>
      if !(u.comparePassword currentPassword) then
        (⟨401, "Incorrect current password."⟩, db)
      else
        (⟨200, "Password updated successfully!"⟩,
          replaceFirst db (fun v => v.id == userId)
            { u with passwordHash := bcryptHash newPassword, updatedAt := now })

/-- Request body of PATCH /api/user/profile.  The controller destructures only
username/phone/bio/avatarUrl; email and role fields in the raw body are carried
here to show they are never read. -/
structure ProfileBody where
  username : Option String
  phone : Option String
  bio : Option String
  avatarUrl : Option String
  email : Option String
  role : Option String
deriving DecidableEq

/-- `$set: updateData` of updateProfile: only the supplied fields among
username/phone/bio/avatarUrl, trimmed, are applied; `timestamps: true`
refreshes updatedAt. -/
def profileApply (u : User) (body : ProfileBody) (now : Nat) : User :=
  { u with
    username := (body.username.map trimStr).getD u.username
    phone := (body.phone.map trimStr).getD u.phone
    bio := (body.bio.map trimStr).getD u.bio
    avatarUrl := (body.avatarUrl.map trimStr).getD u.avatarUrl
    updatedAt := now }

/-- updateProfile from user.controller.js.  Supplied fields are trimmed; the
length and uniqueness pre-checks use JS truthiness (skipped on an empty
string); `findByIdAndUpdate` runs the username minlength-3 validator (schema
modelled from the spec) on the updated path. -/
def updateProfile (db : List User) (userId : Nat) (body : ProfileBody)
    (now : Nat) : (Resp × Option UserView) × List User :=
  let uname := body.username.map trimStr
  let uphone := body.phone.map trimStr
  let ubio := body.bio.map trimStr
  let uavatar := body.avatarUrl.map trimStr
  if uname.isNone && uphone.isNone && ubio.isNone && uavatar.isNone then
    ((⟨400, "No fields provided for update."⟩, none), db)
  else if (match uname with | some s => s != "" && s.length < 3 | none => false) then
    ((⟨400, "Username must be at least 3 characters long."⟩, none), db)
  else if (match uname with
      | some s => s != "" && db.any (fun v => v.username == s && v.id != userId)
      | none => false) then
    ((⟨400, "Username already taken."⟩, none), db)
  else if (match uname with | some s => decide (s.length < 3) | none => false) then
    ((⟨400, "Validation Error"⟩, none), db)
  else
    match findById db userId with
    | none => ((⟨404, "User not found."⟩, none), db)
    | some u =>
      ((⟨200, "Profile updated successfully!"⟩, some (stripSecret (profileApply u body now))),
        replaceFirst db (fun v => v.id == userId) (profileApply u body now))

/-! ### Shared facts about the embedding -/

instance : IsTotal Task newestFirst :=
  ⟨fun a b => Nat.le_total b.createdAt a.createdAt⟩

instance : IsTrans Task newestFirst :=
  ⟨fun _ _ _ h1 h2 => Nat.le_trans h2 h1⟩

instance : IsTotal User byUsername :=
  ⟨fun a b => le_total a.username b.username⟩

instance : IsTrans User byUsername :=
  ⟨fun _ _ _ h1 h2 => le_trans h1 h2⟩

/-- Every task in a getTasks listing belongs to the requested owner. -/
lemma mem_getTasks_owner (db : List Task) (uid : Nat) :
    ∀ t ∈ getTasks db uid, t.createdBy = uid := by
  intro t ht
  have h1 : t ∈ db.filter (fun t => t.createdBy == uid) :=
    (List.perm_insertionSort newestFirst _).mem_iff.mp ht
  exact eq_of_beq (List.mem_filter.mp h1).2

/-- Fixture: a task stored for account 1. -/
def ownedTask : Task :=
  { id := 10
    title := "Buy milk"
    description := ""
    dueDate := 0
    priority := "medium"
    status := "pending"
    assignee := ""
    createdBy := 1
    createdAt := 0
    updatedAt := 0 }

/-- Fixture: a PATCH body whose only field is a client-supplied createdBy. -/
def ownerPatch : TaskPatch :=
  { title := none
    description := none
    dueDate := none
    priority := none
    status := none
    assignee := none
    createdBy := some 2 }

/-- Fixture: an empty PATCH body. -/
def emptyPatch : TaskPatch :=
  { title := none
    description := none
    dueDate := none
    priority := none
    status := none
    assignee := none
    createdBy := none }

/-- C1: the claim says the owner bound at creation is immutable through every
API operation.  Creation does bind createdBy from the authenticated identity
and ignores a client-supplied createdBy (third conjunct).  But PATCH
/api/tasks/:id passes the raw body to `$set`, so account 1 PATCHing its own
task 10 with body `{createdBy: 2}` succeeds with 200 and rebinds the task to
account 2: afterwards account 1's task list is empty.  This evaluates the code
at that failing input. -/
theorem c1_patch_rebinds_owner :
    updateTask [ownedTask] 1 (some 10) ownerPatch 5
      = ((⟨200, "Task updated successfully!"⟩,
          some { ownedTask with createdBy := 2, updatedAt := 5 }),
         [{ ownedTask with createdBy := 2, updatedAt := 5 }]) ∧
    getTasks [{ ownedTask with createdBy := 2, updatedAt := 5 }] 1 = [] ∧
    (createTask [] 1
        { title := "Buy milk", description := none, dueDate := RawDate.parsed 0,
          priority := none, status := none, assignee := none, createdBy := some 2 }
        10 0).1.2.map Task.createdBy = some 1 := by
  decide

/-- C10: when the two supplied plaintexts are equal, updatePassword answers 400
from the pre-lookup equality check: the response is the same for every store
(so no account lookup and no credential check can have influenced it, even when
the supplied current password is not the account's actual password) and the
store is unchanged. -/
theorem c10_equal_passwords_rejected_before_lookup (db : List User) (uid : Nat)
    (pw : String) (now : Nat) :
    (updatePassword db uid pw pw now).1.status = 400 ∧
    (updatePassword db uid pw pw now).1 = (updatePassword [] uid pw pw now).1 ∧
    (updatePassword db uid pw pw now).2 = db := by
  have h : ∀ d : List User, updatePassword d uid pw pw now
      = (if pw = "" then (⟨400, "Current password and new password are required."⟩, d)
         else if pw.length < 6 then
           (⟨400, "New password must be at least 6 characters long."⟩, d)
         else (⟨400, "New password cannot be the same as the current password."⟩, d)) := by
    intro d
    unfold updatePassword
    by_cases h1 : pw = ""
    · simp [h1]
    · by_cases h2 : pw.length < 6
      · simp [h1, h2]
      · simp [h1, h2]
  rw [h db, h []]
  by_cases h1 : pw = ""
  · simp [h1]
  · by_cases h2 : pw.length < 6
    · simp [h1, h2]
    · simp [h1, h2]

/-- C8: GET /api/tasks returns exactly the caller-owned tasks: every listed
task is owned by the caller, the listing is a permutation of the owner-filtered
store (so no owned task is missing and no foreign task appears), and it is
sorted newest-created first. -/
theorem c8_getTasks_owner_scoped_sorted (db : List Task) (uid : Nat) :
    (∀ t ∈ getTasks db uid, t.createdBy = uid) ∧
    List.Perm (getTasks db uid) (db.filter (fun t => t.createdBy == uid)) ∧
    (getTasks db uid).Sorted newestFirst := by
  refine ⟨mem_getTasks_owner db uid, List.perm_insertionSort _ _, ?_⟩
  exact List.sorted_insertionSort _ _

/-- C2: for an authenticated account B and a task id that does not exist or is
owned by another account (hypothesis: no stored task has this id AND owner B),
update and delete both answer the one constant 404 outcome — the response is a
fixed literal, so the two failure causes are indistinguishable — the store is
untouched, and B's task list never contains another account's task. -/
theorem c2_cross_account_update_delete_404 (db : List Task) (userB tid : Nat)
    (body : TaskPatch) (now : Nat)
    (hown : ∀ t ∈ db, t.id = tid → t.createdBy ≠ userB)
    (hpre : statusPrecheckFails body = false)
    (hval : patchValid body = true) :
    updateTask db userB (some tid) body now
      = ((⟨404, "Task not found or you do not have permission to update it."⟩, none), db) ∧
    deleteTask db userB (some tid)
      = ((⟨404, "Task not found or you do not have permission to delete it."⟩, none), db) ∧
    ∀ t ∈ getTasks db userB, t.createdBy = userB := by
  have hfind : db.find? (ownedBy tid userB) = none := by
    rw [List.find?_eq_none]
    intro t ht hp
    have h1 : t.id = tid ∧ t.createdBy = userB := by
      simpa [ownedBy] using hp
    exact hown t ht h1.1 h1.2
  refine ⟨?_, ?_, mem_getTasks_owner db userB⟩
  · unfold updateTask
    simp [hpre, hval, hfind]
  · unfold deleteTask
    simp [hfind]

/-- C2 witness: account 2 against account 1's stored task. -/
theorem c2_cross_account_update_delete_404_witness :
    updateTask [ownedTask] 2 (some 10) emptyPatch 0
      = ((⟨404, "Task not found or you do not have permission to update it."⟩, none),
         [ownedTask]) ∧
    deleteTask [ownedTask] 2 (some 10)
      = ((⟨404, "Task not found or you do not have permission to delete it."⟩, none),
         [ownedTask]) ∧
    ∀ t ∈ getTasks [ownedTask] 2, t.createdBy = 2 :=
  c2_cross_account_update_delete_404 [ownedTask] 2 10 emptyPatch 0
    (by decide) (by decide) (by decide)

/-- Fixture: a duplicate-key exception raised by the storage layer at insert
time (a uniqueness race lost after the pre-insert lookup passed). -/
def dupKeyRace : SaveOutcome := SaveOutcome.fail "MongoServerError" (some 11000)

/-- C3 counterexample: a registration that passes the pre-insert duplicate
lookup (empty store) but whose insert raises the storage layer's uniqueness
violation (name "MongoServerError", code 11000, not a "ValidationError") is
answered with the generic 500 server error, not with a 400 duplicate
response as the claim states. -/
theorem c3_insert_race_counterexample :
    (register [] "alice" "alice@x.com" "secret1" 1 0 dupKeyRace).1.1.status = 500 ∧
    (register [] "alice" "alice@x.com" "secret1" 1 0 dupKeyRace).1.1.status ≠ 400 ∧
    (register [] "alice" "alice@x.com" "secret1" 1 0 dupKeyRace).1.1.message
      = "Server error during registration." := by
  decide

/-- C3 amended: register's catch block maps only errors named "ValidationError"
to 400; a uniqueness violation surfaced by the storage layer at insert time
carries a different name (duplicate-key, code 11000), so register answers the
generic 500 server error — it is treated as a fatal error, not as a duplicate.
(Only the team-member-add path maps the code-11000 error to a 400 duplicate.) -/
theorem c3_insert_race_maps_to_500 (db : List User) (un em pw n : String)
    (fid now : Nat) (code : Option Nat)
    (h1 : un ≠ "") (h2 : em ≠ "") (h3 : pw ≠ "") (h4 : ¬ pw.length < 6)
    (h5 : db.find? (fun u => u.email == em || u.username == un) = none)
    (h6 : n ≠ "ValidationError") :
    register db un em pw fid now (SaveOutcome.fail n code)
      = ((⟨500, "Server error during registration."⟩, none), db) := by
  unfold register
  simp [h1, h2, h3, h4, h5, h6]

/-- C3 amended witness: the dup-key race at a concrete input yields the 500. -/
theorem c3_insert_race_maps_to_500_witness :
    register [] "alice" "alice@x.com" "secret1" 1 0 dupKeyRace
      = ((⟨500, "Server error during registration."⟩, none), []) :=
  c3_insert_race_maps_to_500 [] "alice" "alice@x.com" "secret1" "MongoServerError"
    1 0 (some 11000) (by decide) (by decide) (by decide) (by decide) (by decide)
    (by decide)

/-- C4: the request gate.  A missing bearer token (absent header, or header
without a token part) is rejected 401; a login-minted token (24h = 86400 s
expiry) whose signature verifies but whose expiry has passed is rejected 401
with the distinct "Token expired" message; a token signed with a different
secret, or a signed token whose payload was tampered with, is rejected 403 as
invalid; an accepted token's decoded payload is attached for downstream
handlers; and every token minted by login is signed with the server secret at
issue time with the 24-hour expiry. -/
theorem c4_token_gate (secret s2 hdr : String) (p p2 : JwtPayload)
    (iat now uid : Nat) (db : List User) (em pw : String) (tIss : Nat)
    (hs : s2 ≠ secret) (hp : p2 ≠ p) :
    authenticateToken none secret now
      = AuthResult.reject ⟨401, "Authentication token required"⟩ ∧
    authenticateToken (some (hdr, none)) secret now
      = AuthResult.reject ⟨401, "Authentication token required"⟩ ∧
    (iat + 86400 ≤ now →
      authenticateToken (some (hdr, some (jwtSign p secret iat 86400))) secret now
        = AuthResult.reject ⟨401, "Token expired"⟩) ∧
    authenticateToken (some (hdr, some (jwtSign p s2 iat 86400))) secret now
      = AuthResult.reject ⟨403, "Invalid token"⟩ ∧
    authenticateToken
        (some (hdr, some { jwtSign p secret iat 86400 with payload := p2 })) secret now
      = AuthResult.reject ⟨403, "Invalid token"⟩ ∧
    (now < iat + 86400 → p.userId = some uid →
      authenticateToken (some (hdr, some (jwtSign p secret iat 86400))) secret now
        = AuthResult.proceed p) ∧
    (∀ r tok v, login db em pw secret tIss = LoginOut.ok r tok v →
      tok = jwtSign tok.payload secret tIss 86400) := by
  refine ⟨rfl, rfl, ?_, ?_, ?_, ?_, ?_⟩
  · intro hexp
    unfold authenticateToken jwtVerify jwtSign
    simp [hexp]
  · unfold authenticateToken jwtVerify jwtSign
    simp [mkSig, hs]
  · unfold authenticateToken jwtVerify jwtSign
    simp [mkSig, Ne.symm hp]
  · intro hnow huid
    unfold authenticateToken jwtVerify jwtSign
    simp [Nat.not_le.mpr hnow, huid]
  · intro r tok v h
    by_cases he : em = "" ∨ pw = ""
    · unfold login at h
      simp [he] at h
    · unfold login at h
      simp [he] at h
      rcases hf : db.find? (fun u => u.email == em) with _ | u
      · rw [hf] at h
        simp at h
      · rw [hf] at h
        simp only at h
        by_cases hc : u.comparePassword pw
        · simp [hc] at h
          rw [← h.2.1]
          rfl
        · simp [hc] at h

/-- C4 witness: concrete secret, payload and clock. -/
theorem c4_token_gate_witness :
    authenticateToken none "srv" 10
      = AuthResult.reject ⟨401, "Authentication token required"⟩ ∧
    authenticateToken (some ("Bearer", none)) "srv" 10
      = AuthResult.reject ⟨401, "Authentication token required"⟩ ∧
    (0 + 86400 ≤ 10 →
      authenticateToken
          (some ("Bearer", some (jwtSign ⟨some 1, "alice", "user"⟩ "srv" 0 86400))) "srv" 10
        = AuthResult.reject ⟨401, "Token expired"⟩) ∧
    authenticateToken
        (some ("Bearer", some (jwtSign ⟨some 1, "alice", "user"⟩ "evil" 0 86400))) "srv" 10
      = AuthResult.reject ⟨403, "Invalid token"⟩ ∧
    authenticateToken
        (some ("Bearer",
          some { jwtSign ⟨some 1, "alice", "user"⟩ "srv" 0 86400 with
                   payload := ⟨some 2, "mallory", "admin"⟩ })) "srv" 10
      = AuthResult.reject ⟨403, "Invalid token"⟩ ∧
    (10 < 0 + 86400 → JwtPayload.userId ⟨some 1, "alice", "user"⟩ = some 1 →
      authenticateToken
          (some ("Bearer", some (jwtSign ⟨some 1, "alice", "user"⟩ "srv" 0 86400))) "srv" 10
        = AuthResult.proceed ⟨some 1, "alice", "user"⟩) ∧
    (∀ r tok v, login [] "a@x.com" "secret1" "srv" 0 = LoginOut.ok r tok v →
      tok = jwtSign tok.payload "srv" 0 86400) :=
  c4_token_gate "srv" "evil" "Bearer" ⟨some 1, "alice", "user"⟩
    ⟨some 2, "mallory", "admin"⟩ 0 10 1 [] "a@x.com" "secret1" 0
    (by decide) (by decide)

/-- C5: login with a nonexistent email (store 1) and login with an existing
email but a password whose hash-comparison fails (store 2) produce the one
identical failure literal: status 401 with the generic "Invalid credentials."
message — no distinction the caller could use to enumerate accounts. -/
theorem c5_login_enumeration_resistant (db1 db2 : List User)
    (e1 p1 e2 p2 secret : String) (now : Nat) (u : User)
    (h1 : e1 ≠ "") (h2 : p1 ≠ "") (h3 : e2 ≠ "") (h4 : p2 ≠ "")
    (hmiss : db1.find? (fun v => v.email == e1) = none)
    (hfind : db2.find? (fun v => v.email == e2) = some u)
    (hwrong : u.comparePassword p2 = false) :
    login db1 e1 p1 secret now = LoginOut.fail ⟨401, "Invalid credentials."⟩ ∧
    login db2 e2 p2 secret now = LoginOut.fail ⟨401, "Invalid credentials."⟩ := by
  constructor
  · unfold login
    simp [h1, h2, hmiss]
  · unfold login
    simp [h3, h4, hfind, hwrong]

/-- Fixture: a stored account whose password is "secret1". -/
def aliceUser : User :=
  { id := 1
    username := "alice"
    email := "a@x.com"
    passwordHash := bcryptHash "secret1"
    role := "user"
    phone := ""
    bio := ""
    avatarUrl := ""
    createdAt := 0
    updatedAt := 0 }

/-- C5 witness: unknown email against an empty store, and alice's email with a
wrong password, both at concrete inputs. -/
theorem c5_login_enumeration_resistant_witness :
    login [] "ghost@x.com" "whatever" "srv" 0
      = LoginOut.fail ⟨401, "Invalid credentials."⟩ ∧
    login [aliceUser] "a@x.com" "wrongpw" "srv" 0
      = LoginOut.fail ⟨401, "Invalid credentials."⟩ :=
  c5_login_enumeration_resistant [] [aliceUser] "ghost@x.com" "whatever"
    "a@x.com" "wrongpw" "srv" 0 aliceUser (by decide) (by decide) (by decide)
    (by decide) (by decide) (by decide) (by decide)

/-- After replacing the first match, the first match is the replacement,
provided the replacement itself matches. -/
lemma find?_replaceFirst {α : Type} (db : List α) (p : α → Bool) (x u : α)
    (hu : db.find? p = some u) (hx : p x = true) :
    (replaceFirst db p x).find? p = some x := by
  induction db with
  | nil => simp at hu
  | cons a rest ih =>
    by_cases hpa : p a
    · unfold replaceFirst
      simp [hpa, hx]
    · have h1 : rest.find? p = some u := by
        simpa [List.find?_cons, hpa] using hu
      unfold replaceFirst
      simp [hpa, List.find?_cons, ih h1]

/-- Elements not matching the predicate survive a first-match replacement. -/
lemma mem_replaceFirst_of_not {α : Type} (db : List α) (p : α → Bool) (x v : α)
    (hv : v ∈ db) (hpv : p v = false) : v ∈ replaceFirst db p x := by
  induction db with
  | nil => simp at hv
  | cons a rest ih =>
    rcases List.mem_cons.mp hv with h | h
    · unfold replaceFirst
      rw [h] at hpv ⊢
      simp [hpv, h]
    · by_cases hpa : p a
      · unfold replaceFirst
        simp [hpa, List.mem_cons, h]
      · unfold replaceFirst
        simp only [hpa, if_neg]
        exact List.mem_cons.mpr (Or.inr (ih h))

/-- The store after updateProfile: unchanged, or the found account replaced by
its profileApply image. -/
lemma updateProfile_store (db : List User) (userId : Nat) (body : ProfileBody)
    (now : Nat) :
    (updateProfile db userId body now).2 = db ∨
    (∃ u, findById db userId = some u ∧
      (updateProfile db userId body now).2
        = replaceFirst db (fun v => v.id == userId) (profileApply u body now)) := by
  rcases hf : findById db userId with _ | u
  · refine Or.inl ?_
    simp only [updateProfile, hf]
    repeat' split
    all_goals rfl
  · simp only [updateProfile, hf]
    repeat' split
    · exact Or.inl rfl
    · exact Or.inl rfl
    · exact Or.inl rfl
    · exact Or.inl rfl
    · exact Or.inr ⟨u, rfl, rfl⟩

/-- C6: profile update touches only the allow-listed fields.  Whatever the
request body holds — including email or role values, which the handler never
reads — the account keeps its email, role, password hash and creation time,
every allow-listed field that was not supplied keeps its value, and every
other account in the store is untouched. -/
theorem c6_profile_update_frame (db : List User) (userId : Nat)
    (body : ProfileBody) (now : Nat) (u : User)
    (hu : findById db userId = some u) :
    (∃ u', findById (updateProfile db userId body now).2 userId = some u' ∧
      u'.id = u.id ∧ u'.email = u.email ∧ u'.role = u.role ∧
      u'.passwordHash = u.passwordHash ∧ u'.createdAt = u.createdAt ∧
      (body.username = none → u'.username = u.username) ∧
      (body.phone = none → u'.phone = u.phone) ∧
      (body.bio = none → u'.bio = u.bio) ∧
      (body.avatarUrl = none → u'.avatarUrl = u.avatarUrl)) ∧
    ∀ v ∈ db, v.id ≠ userId → v ∈ (updateProfile db userId body now).2 := by
  have hid : (u.id == userId) = true := by
    simpa using List.find?_some hu
  rcases updateProfile_store db userId body now with hdb | ⟨u0, hu0, hdb⟩
  · refine ⟨⟨u, by rw [hdb]; exact hu, rfl, rfl, rfl, rfl, rfl, ?_, ?_, ?_, ?_⟩, ?_⟩
    · intro _; rfl
    · intro _; rfl
    · intro _; rfl
    · intro _; rfl
    · intro v hv _
      rw [hdb]
      exact hv
  · have huu : u0 = u := by
      rw [hu0] at hu
      exact Option.some.inj hu
    subst huu
    refine ⟨⟨profileApply u0 body now, ?_, rfl, rfl, rfl, rfl, rfl, ?_, ?_, ?_, ?_⟩, ?_⟩
    · rw [hdb]
      exact find?_replaceFirst db _ _ u0 hu0 (by simpa [profileApply] using hid)
    · intro h
      simp [profileApply, h]
    · intro h
      simp [profileApply, h]
    · intro h
      simp [profileApply, h]
    · intro h
      simp [profileApply, h]
    · intro v hv hvne
      rw [hdb]
      exact mem_replaceFirst_of_not db _ _ v hv (by simpa using hvne)

/-- C6 witness: alice updates her bio while the body also carries email and
role values; both are ignored and all unsupplied fields survive. -/
theorem c6_profile_update_frame_witness :
    (∃ u', findById (updateProfile [aliceUser] 1
        ⟨none, none, some "hello", none, some "evil@x.com", some "admin"⟩ 7).2 1
          = some u' ∧
      u'.id = aliceUser.id ∧ u'.email = aliceUser.email ∧ u'.role = aliceUser.role ∧
      u'.passwordHash = aliceUser.passwordHash ∧ u'.createdAt = aliceUser.createdAt ∧
      ((⟨none, none, some "hello", none, some "evil@x.com", some "admin"⟩ :
          ProfileBody).username = none → u'.username = aliceUser.username) ∧
      ((⟨none, none, some "hello", none, some "evil@x.com", some "admin"⟩ :
          ProfileBody).phone = none → u'.phone = aliceUser.phone) ∧
      ((⟨none, none, some "hello", none, some "evil@x.com", some "admin"⟩ :
          ProfileBody).bio = none → u'.bio = aliceUser.bio) ∧
      ((⟨none, none, some "hello", none, some "evil@x.com", some "admin"⟩ :
          ProfileBody).avatarUrl = none → u'.avatarUrl = aliceUser.avatarUrl)) ∧
    ∀ v ∈ [aliceUser], v.id ≠ 1 → v ∈ (updateProfile [aliceUser] 1
        ⟨none, none, some "hello", none, some "evil@x.com", some "admin"⟩ 7).2 :=
  c6_profile_update_frame [aliceUser] 1
    ⟨none, none, some "hello", none, some "evil@x.com", some "admin"⟩ 7 aliceUser
    (by decide)

/-- C7: updatePassword rejects a new password shorter than 6 characters with
400, rejects new equal to current with 400, and when the supplied current
password fails the hash comparison it answers 401 with the store unchanged —
so a login against the post-operation store with the account's old password
still succeeds.  (The current secret must verify before any write: the only
write path is behind the successful comparison.) -/
theorem c7_wrong_current_password_no_write (db : List User) (uid : Nat)
    (u : User) (cur nw old em secret : String) (now tl : Nat)
    (hfind : findById db uid = some u)
    (hwrong : u.comparePassword cur = false)
    (hcur : cur ≠ "") (hnew : nw ≠ "") (hlen : ¬ nw.length < 6) (hne : cur ≠ nw)
    (hem : em ≠ "") (holdne : old ≠ "")
    (hbyem : db.find? (fun v => v.email == em) = some u)
    (holdok : u.comparePassword old = true) :
    (∀ n, n.length < 6 → (updatePassword db uid cur n now).1.status = 400) ∧
    (∀ c, ¬ c.length < 6 → (updatePassword db uid c c now).1
        = ⟨400, "New password cannot be the same as the current password."⟩) ∧
    updatePassword db uid cur nw now = (⟨401, "Incorrect current password."⟩, db) ∧
    login (updatePassword db uid cur nw now).2 em old secret tl
      = LoginOut.ok ⟨200, "Login successful!"⟩
        (jwtSign { userId := some u.id, username := u.username, role := u.role }
          secret tl 86400)
        (stripSecret u) := by
  have h401 : updatePassword db uid cur nw now
      = (⟨401, "Incorrect current password."⟩, db) := by
    unfold updatePassword
    simp [hcur, hnew, hlen, hne, hfind, hwrong]
  refine ⟨?_, ?_, h401, ?_⟩
  · intro n hn
    unfold updatePassword
    by_cases h0 : n = ""
    · simp [hcur, h0]
    · simp [hcur, h0, hn]
  · intro c hc
    have h0 : c ≠ "" := by
      intro h
      rw [h] at hc
      exact hc (by decide)
    unfold updatePassword
    simp [h0, hc]
  · rw [h401]
    unfold login
    simp [hem, holdne, hbyem, holdok]

/-- C7 witness: alice (password "secret1") at concrete inputs — wrong current
password "wrongpw", new "newpass7"; afterwards login with "secret1" succeeds. -/
theorem c7_wrong_current_password_no_write_witness :
    (∀ n, n.length < 6 →
      (updatePassword [aliceUser] 1 "wrongpw" n 9).1.status = 400) ∧
    (∀ c, ¬ c.length < 6 → (updatePassword [aliceUser] 1 c c 9).1
        = ⟨400, "New password cannot be the same as the current password."⟩) ∧
    updatePassword [aliceUser] 1 "wrongpw" "newpass7" 9
      = (⟨401, "Incorrect current password."⟩, [aliceUser]) ∧
    login (updatePassword [aliceUser] 1 "wrongpw" "newpass7" 9).2
        "a@x.com" "secret1" "srv" 11
      = LoginOut.ok ⟨200, "Login successful!"⟩
        (jwtSign { userId := some aliceUser.id, username := aliceUser.username,
                   role := aliceUser.role } "srv" 11 86400)
        (stripSecret aliceUser) :=
  c7_wrong_current_password_no_write [aliceUser] 1 aliceUser "wrongpw" "newpass7"
    "secret1" "a@x.com" "srv" 9 11 (by decide) (by decide) (by decide) (by decide)
    (by decide) (by decide) (by decide) (by decide) (by decide) (by decide)

/-- orderedInsert only compares usernames, so it commutes with a map that
preserves the username. -/
lemma orderedInsert_username_map (g : User → User)
    (hg : ∀ u, (g u).username = u.username) (a : User) (l : List User) :
    List.orderedInsert byUsername (g a) (l.map g)
      = (List.orderedInsert byUsername a l).map g := by
  induction l with
  | nil => simp [List.orderedInsert]
  | cons b rest ih =>
    by_cases h : byUsername a b
    · have h2 : byUsername (g a) (g b) := by
        unfold byUsername at h ⊢
        rw [hg, hg]
        exact h
      simp [List.orderedInsert, h, h2]
    · have h2 : ¬ byUsername (g a) (g b) := by
        unfold byUsername at h ⊢
        rw [hg, hg]
        exact h
      simp [List.orderedInsert, h, h2, ih]

/-- insertionSort by username commutes with a username-preserving map. -/
lemma insertionSort_username_map (g : User → User)
    (hg : ∀ u, (g u).username = u.username) (l : List User) :
    List.insertionSort byUsername (l.map g)
      = (List.insertionSort byUsername l).map g := by
  induction l with
  | nil => simp
  | cons b rest ih =>
    simp [List.insertionSort, ih, orderedInsert_username_map g hg]

/-- C9: no success response exposes the stored hash.  A valid registration's
whole response (status, message and returned account view) is identical for
any two accepted passwords — the view carries no trace of the secret; and the
team directory is invariant under arbitrary replacement of every stored hash,
lists exactly the sanitized views of all accounts, and is sorted by
username. -/
theorem c9_secrets_excluded (db : List User) (un em p1 p2 : String)
    (fid now : Nat)
    (h1 : un ≠ "") (h2 : em ≠ "") (h3 : p1 ≠ "") (h4 : p2 ≠ "")
    (h5 : ¬ p1.length < 6) (h6 : ¬ p2.length < 6) :
    (register db un em p1 fid now SaveOutcome.ok).1
      = (register db un em p2 fid now SaveOutcome.ok).1 ∧
    (∀ f : String → String,
      getTeamMembers (db.map (fun u => { u with passwordHash := f u.passwordHash }))
        = getTeamMembers db) ∧
    List.Perm (getTeamMembers db) (db.map stripSecret) ∧
    (getTeamMembers db).Sorted (fun a b => a.username ≤ b.username) := by
  refine ⟨?_, ?_, ?_, ?_⟩
  · unfold register
    simp only [h1, h2, h3, h4, h5, h6]
    rcases hf : db.find? (fun u => u.email == em || u.username == un) with _ | w
    · simp [hf, toRegisterView]
    · simp [hf]
  · intro f
    unfold getTeamMembers
    rw [insertionSort_username_map (fun u => { u with passwordHash := f u.passwordHash })
      (fun _ => rfl)]
    rw [List.map_map]
    rfl
  · unfold getTeamMembers
    exact (List.perm_insertionSort byUsername db).map stripSecret
  · unfold getTeamMembers
    exact List.Pairwise.map stripSecret (fun a b h => h)
      (List.sorted_insertionSort byUsername db)

/-- C9 witness: a concrete registration with two different passwords and a
concrete two-account directory. -/
theorem c9_secrets_excluded_witness :
    (register [aliceUser] "zoe" "z@x.com" "secret1" 5 9 SaveOutcome.ok).1
      = (register [aliceUser] "zoe" "z@x.com" "hunter22" 5 9 SaveOutcome.ok).1 ∧
    (∀ f : String → String,
      getTeamMembers
          ([aliceUser].map (fun u => { u with passwordHash := f u.passwordHash }))
        = getTeamMembers [aliceUser]) ∧
    List.Perm (getTeamMembers [aliceUser]) ([aliceUser].map stripSecret) ∧
    (getTeamMembers [aliceUser]).Sorted (fun a b => a.username ≤ b.username) :=
  c9_secrets_excluded [aliceUser] "zoe" "z@x.com" "secret1" "hunter22" 5 9
    (by decide) (by decide) (by decide) (by decide) (by decide) (by decide)

end TaskMaster
